import Mathlib

/-!
Verification of the jellyvr gateway core (src/main.rs, src/index.rs,
src/heresphere.rs) against its natural-language specification.

Shallow-embedding conventions:
* Rust `i64` / `i32` timestamps and tick counts become `Int` (no arithmetic
  here ever approaches the 2^63 wrap, and the source would panic on overflow
  in debug builds rather than wrap silently).
* Rust `f64` fields (`speed`, event `time`) become `ℚ`.  `f64::round` (round
  half away from zero) and Mathlib's `round` (round half up) agree on all
  nonnegative arguments, which is the only regime the theorems below touch;
  `as i64` truncation toward zero is modelled explicitly by `f64_as_i64`.
* `chrono::DateTime<Utc>` becomes an `Int` millisecond timestamp.  The source
  samples `Utc::now()` several times inside one loop body; the model uses a
  single per-tick `now`, as the specification does.
* SurrealDB tables become lists of records / update functions; a record id
  (`surrealdb::sql::Thing`) becomes its `String` key.
* Fallible upstream HTTP calls and database writes are oracles supplied in an
  environment record; `Except String` mirrors `eyre::Result`, and a Rust
  `panic!` / `.unwrap()` on `None` is modelled by `Option.none` or a
  distinguished error where noted.
-/

namespace JellyVR

/-- Playback record (struct `Playback`, main.rs).  `duration` and
`position_estimate` are in Jellyfin ticks (1 ms = 10000 ticks), exactly as
in the source. -/
structure Playback where
  play_session_id : String
  video_id : String
  duration : Int
  position_estimate : Int
  speed : ℚ
  started_at : Int
  last_update : Int
  is_paused : Bool
  deriving DecidableEq

/-- Authenticated user record (struct `User`, main.rs). -/
structure User where
  user_id : String
  token : String
  username : String
  jellyvr_password : String
  last_known_playback : Option Playback
  deriving DecidableEq

/-- Pending pairing record (struct `QuickConnect`, main.rs). -/
structure QuickConnect where
  secret : String
  code : String
  deriving DecidableEq

/-- Session variant (enum `Session`, main.rs). -/
inductive Session where
  | QuickConnect (qc : QuickConnect)
  | User (u : User)
  deriving DecidableEq

/-- Persisted session row (struct `SessionState`, main.rs); `id` is the
record id in the `session` table. -/
structure SessionState where
  id : Option String
  session : Session
  deriving DecidableEq

/-- Truncation toward zero, the semantics of Rust `as i64` on an `f64`. -/
def f64_as_i64 (q : ℚ) : Int :=
  if 0 ≤ q then ⌊q⌋ else ⌈q⌉

/-! ## The progress extrapolation loop (`progress_update_routine`, main.rs) -/

/-- Oracle environment for one tick of the background loop: the sampled wall
clock and the success of the two external effects (the Jellyfin
`playback_progress` call, keyed by play session id, and the SurrealDB
`update_session` write, keyed by session record id). -/
structure TickEnv where
  now : Int
  progressOk : String → Bool
  persistOk : String → Bool

/-- Side effects the loop body can attempt, in order of occurrence. -/
inductive TickEffect where
  | progressCall (video_id play_session_id : String) (position : Int)
      (is_paused : Bool) (started_at : Int)
  | persist (st : SessionState)
  deriving DecidableEq

/-- The extrapolated position computed by the loop body:
`playback.position_estimate + ((elapsed_ms as f64) * speed).round() as i64 * 10000`. -/
def predictedPosition (now : Int) (p : Playback) : Int :=
  p.position_estimate + (round ((now - p.last_update : ℚ) * p.speed)) * 10000

/-- The playback written by the loop's overrun branch:
`Playback { is_paused: true, last_update: Utc::now(), ..playback }`. -/
def pausedPlayback (now : Int) (p : Playback) : Playback :=
  { p with is_paused := true, last_update := now }

/-- The playback written by the loop's progress branch:
`Playback { position_estimate: new_position, last_update: Utc::now(), ..playback }`. -/
def progressedPlayback (now new_position : Int) (p : Playback) : Playback :=
  { p with position_estimate := new_position, last_update := now }

/-- The session row rebuilt around a replacement playback:
`SessionState { id: session.id, session: Session::User(User { last_known_playback: Some(p), ..user }) }`. -/
def withPlayback (st : SessionState) (user : User) (p : Playback) : SessionState :=
  { id := st.id, session := .User { user with last_known_playback := some p } }

/-- Result of `AppState::update_session` (main.rs): the write targets the
record id (panicking on a missing id, modelled as a distinguished error) and
fails when the database returns no record. -/
def update_session_result (env : TickEnv) (st : SessionState) :
    Except String SessionState :=
  match st.id with
  | none => .error "panic: unwrap on None session id"
  | some i => if env.persistOk i then .ok st else .error "Failed to update session"

/-- One iteration of the `for session in sessions` body of
`progress_update_routine`: the effects attempted for this session and either
the new persisted record (`some`), no change (`none`), or the error that the
question-mark operator propagates out of the whole routine. -/
def processSession (env : TickEnv) (st : SessionState) :
    List TickEffect × Except String (Option SessionState) :=
  match st.session with
  | .QuickConnect _ => ([], .ok none)
  | .User user =>
    match user.last_known_playback with
    | none => ([], .ok none)
    | some playback =>
      if playback.is_paused then ([], .ok none)
      else
        let new_position := predictedPosition env.now playback
        if playback.duration > 0 ∧ new_position > playback.duration then
          let st' := withPlayback st user (pausedPlayback env.now playback)
          ([.persist st'], (update_session_result env st').map some)
        else
          let call := TickEffect.progressCall playback.video_id
            playback.play_session_id new_position playback.is_paused
            playback.started_at
          if env.progressOk playback.play_session_id then
            let st' := withPlayback st user
              (progressedPlayback env.now new_position playback)
            ([call, .persist st'], (update_session_result env st').map some)
          else
            ([call], .error "Failed to report playback progress")

/-- The whole tick (`progress_update_routine`, main.rs): sessions are
processed in order; the first error aborts the loop via the question-mark
operator, leaving the current and all later records untouched.  Returns the
attempted effects, the resulting table contents, and the propagated error,
if any. -/
def progress_update_routine (env : TickEnv) :
    List SessionState → List TickEffect × List SessionState × Option String
  | [] => ([], [], none)
  | st :: rest =>
    match processSession env st with
    | (effs, .error e) => (effs, st :: rest, some e)
    | (effs, .ok ost) =>
      let r := progress_update_routine env rest
      (effs ++ r.1, ost.getD st :: r.2.1, r.2.2)

/-- The record a single session holds after one tick touches it: updated when
the body persisted a new value, otherwise unchanged (skip or failure). -/
def tickRecord (env : TickEnv) (st : SessionState) : SessionState :=
  match processSession env st with
  | (_, .ok (some st')) => st'
  | _ => st

/-- Iterated ticks of the loop as seen by one session's record. -/
def tickRecords (envs : List TickEnv) (st : SessionState) : SessionState :=
  envs.foldl (fun s e => tickRecord e s) st

/-- The playback attached to a session record, if any. -/
def pbOf (st : SessionState) : Option Playback :=
  match st.session with
  | .User u => u.last_known_playback
  | _ => none

/-- A `TickEffect` is an upstream progress-report call. -/
def TickEffect.isProgressCall : TickEffect → Bool
  | .progressCall _ _ _ _ _ => true
  | .persist _ => false

/-- C3: on a tick where a non-paused playback has positive duration and the
extrapolated position exceeds the duration, the loop persists the playback
with `is_paused = true` and `last_update = now`, leaving the position
unchanged, and issues no upstream progress call for that session this tick. -/
theorem C3_overrun_pauses_without_progress_call
    (env : TickEnv) (st : SessionState) (user : User) (playback : Playback)
    (hu : st.session = .User user)
    (hpb : user.last_known_playback = some playback)
    (hnp : playback.is_paused = false)
    (hdur : playback.duration > 0)
    (hover : predictedPosition env.now playback > playback.duration)
    (i : String) (hi : st.id = some i) (hok : env.persistOk i = true) :
    processSession env st =
      ([.persist (withPlayback st user (pausedPlayback env.now playback))],
        .ok (some (withPlayback st user (pausedPlayback env.now playback)))) ∧
      ∀ e ∈ (processSession env st).1, e.isProgressCall = false := by
  have hres : processSession env st =
      ([.persist (withPlayback st user (pausedPlayback env.now playback))],
        .ok (some (withPlayback st user (pausedPlayback env.now playback)))) := by
    simp only [processSession, hu, hpb, hnp, Bool.false_eq_true, if_false,
      if_pos (And.intro hdur hover), update_session_result, withPlayback, hi,
      hok, if_pos, Except.map]
  refine ⟨hres, ?_⟩
  intro e he
  rw [hres] at he
  simp only [List.mem_singleton] at he
  simp [he, TickEffect.isProgressCall]

/-- Concrete tick environment used by the C3 witness: `now` 30000 ms after
the playback's last update, all external calls succeeding. -/
def overrunTickEnv : TickEnv :=
  { now := 30000, progressOk := fun _ => true, persistOk := fun _ => true }

/-- Concrete playback for the specification's overrun scenario, in ticks:
duration 600000 ms, position 590000 ms, speed 1, not paused. -/
def overrunPlayback : Playback :=
  { play_session_id := "ps1", video_id := "v1",
    duration := 6000000000, position_estimate := 5900000000,
    speed := 1, started_at := 0, last_update := 0, is_paused := false }

/-- Concrete authenticated user carrying `overrunPlayback`. -/
def overrunUser : User :=
  { user_id := "u1", token := "t", username := "alice",
    jellyvr_password := "abcdef",
    last_known_playback := some overrunPlayback }

/-- Concrete session row carrying `overrunUser`. -/
def overrunRow : SessionState :=
  { id := some "s1", session := .User overrunUser }

/-- C3 witness: the specification scenario (duration 600000 ms, position
590000 ms, speed 1, elapsed 30000 ms, so the prediction 620000 ms exceeds
the duration): the playback is persisted paused with `last_update = now` and
no progress call is attempted. -/
theorem C3_witness :
    processSession overrunTickEnv overrunRow =
      ([.persist (withPlayback overrunRow overrunUser
          (pausedPlayback 30000 overrunPlayback))],
        .ok (some (withPlayback overrunRow overrunUser
          (pausedPlayback 30000 overrunPlayback)))) ∧
      ∀ e ∈ (processSession overrunTickEnv overrunRow).1,
        e.isProgressCall = false :=
  C3_overrun_pauses_without_progress_call overrunTickEnv overrunRow
    overrunUser overrunPlayback rfl rfl rfl (by decide)
    (by norm_num [predictedPosition, overrunTickEnv, overrunPlayback]) "s1" rfl rfl

/-- Rounding a nonnegative rational yields a nonnegative integer. -/
theorem round_nonneg_of_nonneg {q : ℚ} (h : 0 ≤ q) : 0 ≤ round q := by
  rw [round_eq]
  exact Int.floor_nonneg.mpr (by linarith)

/-- Rounding a rational that is an integer yields that integer; used to
evaluate the extrapolation at concrete inputs. -/
theorem round_eval {q : ℚ} {n : Int} (h : q = (n : ℚ)) : round q = n := by
  rw [h, round_intCast]

/-- With nonnegative speed and a clock at or past the last update, the
extrapolated position does not fall below the stored one. -/
theorem predictedPosition_ge {now : Int} {p : Playback}
    (hs : 0 ≤ p.speed) (ht : p.last_update ≤ now) :
    p.position_estimate ≤ predictedPosition now p := by
  have helapsed : (0 : ℚ) ≤ (now : ℚ) - (p.last_update : ℚ) := by
    rw [sub_nonneg]
    exact_mod_cast ht
  have hround := round_nonneg_of_nonneg (mul_nonneg helapsed hs)
  have : (0 : Int) ≤ round (((now : ℚ) - (p.last_update : ℚ)) * p.speed) * 10000 :=
    mul_nonneg hround (by norm_num)
  rw [predictedPosition]
  linarith

/-- A paused playback is left entirely unchanged by a tick of the loop (the
body skips it with `continue`). -/
theorem tickRecord_paused (env : TickEnv) (st : SessionState) (p : Playback)
    (hp : pbOf st = some p) (hpause : p.is_paused = true) :
    tickRecord env st = st := by
  obtain ⟨id, sess⟩ := st
  cases sess with
  | QuickConnect qc => simp [pbOf] at hp
  | User user =>
    simp only [pbOf] at hp
    simp [tickRecord, processSession, hp, hpause]

/-- One tick's effect on a session's playback, for nonnegative speed and a
clock at or past the last update: the playback survives, its position does
not decrease, its speed is preserved, and its last update is either kept or
set to the tick clock (every branch of the loop body, including both
failure modes, satisfies this). -/
theorem tickRecord_step (env : TickEnv) (st : SessionState) (p : Playback)
    (hp : pbOf st = some p) (hs : 0 ≤ p.speed) (ht : p.last_update ≤ env.now) :
    ∃ p', pbOf (tickRecord env st) = some p' ∧
      p.position_estimate ≤ p'.position_estimate ∧
      p'.speed = p.speed ∧
      (p'.last_update = p.last_update ∨ p'.last_update = env.now) := by
  obtain ⟨id, sess⟩ := st
  cases sess with
  | QuickConnect qc => simp [pbOf] at hp
  | User user =>
    simp only [pbOf] at hp
    cases hpause : p.is_paused with
    | true =>
      exact ⟨p, by simp [tickRecord, processSession, hp, hpause, pbOf],
        le_refl _, rfl, Or.inl rfl⟩
    | false =>
      by_cases hover : p.duration > 0 ∧ predictedPosition env.now p > p.duration
      · -- overrun branch: pause in place
        cases hid : id with
        | none =>
          refine ⟨p, ?_, le_refl _, rfl, Or.inl rfl⟩
          simp [tickRecord, processSession, hp, hpause, hover,
            update_session_result, pbOf, withPlayback, Except.map]
        | some i =>
          cases hok : env.persistOk i with
          | false =>
            refine ⟨p, ?_, le_refl _, rfl, Or.inl rfl⟩
            simp [tickRecord, processSession, hp, hpause, hover,
              update_session_result, hok, pbOf, withPlayback, Except.map]
          | true =>
            refine ⟨pausedPlayback env.now p, ?_, le_refl _, rfl, Or.inr rfl⟩
            simp [tickRecord, processSession, hp, hpause, hover,
              update_session_result, hok, pbOf, withPlayback, Except.map]
      · -- progress branch
        cases hcall : env.progressOk p.play_session_id with
        | false =>
          refine ⟨p, ?_, le_refl _, rfl, Or.inl rfl⟩
          simp [tickRecord, processSession, hp, hpause, hover, hcall, pbOf]
        | true =>
          cases hid : id with
          | none =>
            refine ⟨p, ?_, le_refl _, rfl, Or.inl rfl⟩
            simp [tickRecord, processSession, hp, hpause, hover, hcall,
              update_session_result, pbOf, withPlayback, Except.map]
          | some i =>
            cases hok : env.persistOk i with
            | false =>
              refine ⟨p, ?_, le_refl _, rfl, Or.inl rfl⟩
              simp [tickRecord, processSession, hp, hpause, hover, hcall,
                update_session_result, hok, pbOf, withPlayback, Except.map]
            | true =>
              refine ⟨progressedPlayback env.now
                  (predictedPosition env.now p) p, ?_,
                predictedPosition_ge hs ht, rfl, Or.inr rfl⟩
              simp [tickRecord, processSession, hp, hpause, hover, hcall,
                update_session_result, hok, pbOf, withPlayback, Except.map]

/-- A chain of lower bounds survives weakening its head. -/
theorem chain_le_of_le {a b : Int} {l : List Int}
    (h : List.Chain (fun x y : Int => x ≤ y) a l) (hba : b ≤ a) :
    List.Chain (fun x y : Int => x ≤ y) b l := by
  cases l with
  | nil => exact List.Chain.nil
  | cons c t =>
    rw [List.chain_cons] at h ⊢
    exact ⟨le_trans hba h.1, h.2⟩

/-- C4 (amended): for a playback with nonnegative speed, the persisted
position is monotonically non-decreasing across any run of consecutive
ticks whose clocks are ordered after the playback's last update (ticks
whose upstream call or persist fails leave the position unchanged); and a
paused playback — in particular one auto-paused by the overrun check — is
left unchanged by every further tick until an external event rewrites it.
The original claim's monotonicity fails for negative speeds, which a client
Play event can install (see the counterexample). -/
theorem C4_monotone_under_nonneg_speed
    (envs : List TickEnv) (st : SessionState) (p : Playback)
    (hp : pbOf st = some p) (hs : 0 ≤ p.speed)
    (hchain : List.Chain (fun a b : Int => a ≤ b) p.last_update
      (envs.map TickEnv.now)) :
    (∃ p', pbOf (tickRecords envs st) = some p' ∧
      p.position_estimate ≤ p'.position_estimate) ∧
    (p.is_paused = true → tickRecords envs st = st) := by
  induction envs generalizing st p with
  | nil => exact ⟨⟨p, hp, le_refl _⟩, fun _ => rfl⟩
  | cons e rest ih =>
    rw [List.map_cons, List.chain_cons] at hchain
    obtain ⟨hte, hchain'⟩ := hchain
    obtain ⟨p1, hp1, hpos1, hspeed1, hlu1⟩ := tickRecord_step e st p hp hs hte
    have hs1 : 0 ≤ p1.speed := by rw [hspeed1]; exact hs
    have hchain1 : List.Chain (fun a b : Int => a ≤ b) p1.last_update
        (rest.map TickEnv.now) := by
      cases hlu1 with
      | inl h => rw [h]; exact chain_le_of_le hchain' hte
      | inr h => rw [h]; exact hchain'
    have hrec : tickRecords (e :: rest) st = tickRecords rest (tickRecord e st) := rfl
    constructor
    · obtain ⟨p2, hp2, hpos2⟩ := (ih (tickRecord e st) p1 hp1 hs1 hchain1).1
      exact ⟨p2, by rw [hrec]; exact hp2, le_trans hpos1 hpos2⟩
    · intro hpause
      rw [hrec, tickRecord_paused e st p hp hpause]
      exact (ih st p hp hs (chain_le_of_le hchain' hte)).2 hpause

/-- Concrete two-tick run for the C4 witness: clocks at 30000 and 60000 ms,
all external calls succeed. -/
def monoEnv1 : TickEnv :=
  { now := 30000, progressOk := fun _ => true, persistOk := fun _ => true }

/-- Second tick environment of the C4 witness run. -/
def monoEnv2 : TickEnv :=
  { now := 60000, progressOk := fun _ => true, persistOk := fun _ => true }

/-- Non-paused playback with speed 1 and unbounded duration for the C4
witness. -/
def monoPlayback : Playback :=
  { play_session_id := "ps1", video_id := "v1", duration := 0,
    position_estimate := 1000, speed := 1, started_at := 0,
    last_update := 0, is_paused := false }

/-- Session row carrying `monoPlayback`. -/
def monoRow : SessionState :=
  { id := some "s1",
    session := .User
      { user_id := "u1", token := "t", username := "alice",
        jellyvr_password := "abcdef",
        last_known_playback := some monoPlayback } }

/-- C4 witness: two consecutive successful ticks at 30000 and 60000 ms
applied to `monoPlayback` keep a playback attached and never decrease its
position. -/
theorem C4_witness :
    (∃ p', pbOf (tickRecords [monoEnv1, monoEnv2] monoRow) = some p' ∧
      monoPlayback.position_estimate ≤ p'.position_estimate) ∧
    (monoPlayback.is_paused = true →
      tickRecords [monoEnv1, monoEnv2] monoRow = monoRow) :=
  C4_monotone_under_nonneg_speed [monoEnv1, monoEnv2] monoRow monoPlayback
    rfl (by norm_num [monoPlayback])
    (by simp [List.chain_cons, monoEnv1, monoEnv2, monoPlayback])

/-- Playback with a negative speed installed by a client Play event, for the
C4 counterexample. -/
def negSpeedPlayback : Playback :=
  { play_session_id := "ps1", video_id := "v1", duration := 6000000000,
    position_estimate := 5900000000, speed := -1, started_at := 0,
    last_update := 0, is_paused := false }

/-- Authenticated user carrying `negSpeedPlayback`. -/
def negSpeedUser : User :=
  { user_id := "u1", token := "t", username := "alice",
    jellyvr_password := "abcdef",
    last_known_playback := some negSpeedPlayback }

/-- Session row carrying `negSpeedUser`. -/
def negSpeedRow : SessionState :=
  { id := some "s1", session := .User negSpeedUser }

/-- C4 counterexample: with speed -1 (installable by a client Play event —
the code never validates the sign), a fully successful tick 30000 ms later
persists position 5600000000 < 5900000000 ticks, so the persisted position
of a non-paused playback is not monotonically non-decreasing as the claim
states. -/
theorem C4_counterexample :
    pbOf (tickRecord monoEnv1 negSpeedRow) =
      some (progressedPlayback 30000 5600000000 negSpeedPlayback) ∧
    (progressedPlayback 30000 5600000000 negSpeedPlayback).position_estimate <
      negSpeedPlayback.position_estimate := by
  have hpred : predictedPosition monoEnv1.now negSpeedPlayback = 5600000000 := by
    rw [predictedPosition,
      round_eval (n := -30000) (by norm_num [monoEnv1, negSpeedPlayback])]
    norm_num [negSpeedPlayback]
  constructor
  · simp only [tickRecord, processSession, negSpeedRow, negSpeedUser]
    rw [hpred]
    norm_num [negSpeedPlayback, monoEnv1, update_session_result, withPlayback,
      pbOf, progressedPlayback, Except.map]
  · norm_num [progressedPlayback, negSpeedPlayback]

/-- C2 (amended): the loop body's errors propagate via the question-mark
operator — when processing of one session fails (upstream progress call or
persistence write), the whole tick aborts with that error: the failing
session's record and all later sessions' records are left untouched and no
effect is attempted for any later session.  The error is logged once by the
spawning loop and the next tick starts over.  (The original claim — that
one session's failure is logged and processing continues with the next
session within the same tick — is refuted by the counterexample.) -/
theorem C2_failure_aborts_tick
    (env : TickEnv) (st : SessionState) (rest : List SessionState)
    (effs : List TickEffect) (e : String)
    (h : processSession env st = (effs, .error e)) :
    progress_update_routine env (st :: rest) = (effs, st :: rest, some e) := by
  rw [progress_update_routine, h]

/-- Tick environment where the progress call succeeds only for play session
"ps2": session one's upstream call fails. -/
def tickFailEnv : TickEnv :=
  { now := 30000, progressOk := fun ps => ps == "ps2",
    persistOk := fun _ => true }

/-- First playback of the C2 run (play session "ps1", whose upstream call
fails). -/
def tickPlaybackOne : Playback :=
  { play_session_id := "ps1", video_id := "v1", duration := 0,
    position_estimate := 0, speed := 1, started_at := 0, last_update := 0,
    is_paused := false }

/-- Second playback of the C2 run (play session "ps2", whose upstream call
would succeed). -/
def tickPlaybackTwo : Playback :=
  { play_session_id := "ps2", video_id := "v2", duration := 0,
    position_estimate := 0, speed := 1, started_at := 0, last_update := 0,
    is_paused := false }

/-- Session row carrying `tickPlaybackOne`. -/
def tickRowOne : SessionState :=
  { id := some "s1",
    session := .User
      { user_id := "u1", token := "t1", username := "alice",
        jellyvr_password := "aaaaaa",
        last_known_playback := some tickPlaybackOne } }

/-- Session row carrying `tickPlaybackTwo`. -/
def tickRowTwo : SessionState :=
  { id := some "s2",
    session := .User
      { user_id := "u2", token := "t2", username := "bob",
        jellyvr_password := "bbbbbb",
        last_known_playback := some tickPlaybackTwo } }

/-- C2 counterexample: with two active sessions where the first session's
upstream progress call fails, the tick aborts after the first session's
failed call: the error propagates out of the routine, both records are left
unchanged, and no progress call is ever attempted for the second session,
contradicting the claim that processing continues with the next session. -/
theorem C2_counterexample :
    progress_update_routine tickFailEnv [tickRowOne, tickRowTwo] =
      ([.progressCall "v1" "ps1" 300000000 false 0], [tickRowOne, tickRowTwo],
        some "Failed to report playback progress") ∧
    TickEffect.progressCall "v2" "ps2" 300000000 false 0 ∉
      (progress_update_routine tickFailEnv [tickRowOne, tickRowTwo]).1 := by
  have h1 : processSession tickFailEnv tickRowOne =
      ([.progressCall "v1" "ps1" 300000000 false 0],
        .error "Failed to report playback progress") := by
    norm_num [processSession, tickFailEnv, tickRowOne, tickPlaybackOne,
      predictedPosition, String.ext_iff]
    decide
  have h2 : progress_update_routine tickFailEnv [tickRowOne, tickRowTwo] =
      ([.progressCall "v1" "ps1" 300000000 false 0], [tickRowOne, tickRowTwo],
        some "Failed to report playback progress") := by
    rw [progress_update_routine, h1]
  refine ⟨h2, ?_⟩
  rw [h2]
  simp

/-- C2 witness for the amended claim, at the concrete failing run: the
abort theorem applied to the first session's failing call. -/
theorem C2_witness :
    progress_update_routine tickFailEnv [tickRowOne, tickRowTwo] =
      ([.progressCall "v1" "ps1" 300000000 false 0], [tickRowOne, tickRowTwo],
        some "Failed to report playback progress") :=
  C2_failure_aborts_tick tickFailEnv tickRowOne [tickRowTwo]
    [.progressCall "v1" "ps1" 300000000 false 0]
    "Failed to report playback progress"
    (by
      norm_num [processSession, tickFailEnv, tickRowOne, tickPlaybackOne,
        predictedPosition, String.ext_iff]
      decide)

/-! ## The per-user cache (`HeresphereIndex`, index.rs) -/

/-- Library listing (struct `Library`, heresphere.rs). -/
structure Library where
  name : String
  list : List String
  deriving DecidableEq

/-- Media source (struct `MediaSource`, heresphere.rs). -/
structure MediaSource where
  url : String
  deriving DecidableEq

/-- Media entry (struct `Media`, heresphere.rs). -/
structure Media where
  name : String
  sources : List MediaSource
  deriving DecidableEq

/-- Tag (struct `Tag`, heresphere.rs); `f64` fields as `ℚ`. -/
structure Tag where
  name : String
  start : Option ℚ
  ending : Option ℚ
  track : Option Int
  rating : Option ℚ
  deriving DecidableEq

/-- Subtitle track (struct `Subtitle`, heresphere.rs). -/
structure Subtitle where
  name : String
  language : String
  url : String
  deriving DecidableEq

/-- Script entry (struct `Script`, heresphere.rs). -/
structure Script where
  name : String
  url : String
  rating : Option ℚ
  deriving DecidableEq

/-- Per-item descriptor (struct `VideoData`, heresphere.rs); `f64` fields
as `ℚ`. -/
structure VideoData where
  access : Option Int
  title : String
  duration : ℚ
  media : List Media
  tags : List Tag
  date_released : String
  date_added : String
  projection : String
  stereo : String
  is_favorite : Option Bool
  thumbnail_image : String
  description : Option String
  rating : Option ℚ
  thumbnail_video : Option String
  favorites : Option Int
  comments : Option Int
  is_eye_swapped : Option Bool
  fov : Option ℚ
  lens : Option String
  camera_ipd : Option ℚ
  hsp : Option String
  event_server : Option String
  scripts : Option (List Script)
  subtitles : Option (List Subtitle)
  write_favorite : Option Bool
  write_rating : Option Bool
  write_tags : Option Bool
  write_hsp : Option Bool
  deriving DecidableEq

/-- Scan row (struct `ScanData`, heresphere.rs): a link plus a flattened
`VideoData`. -/
structure ScanData where
  link : String
  video : VideoData
  deriving DecidableEq

/-- Scan listing (struct `Scan`, heresphere.rs). -/
structure Scan where
  scan_data : List ScanData
  deriving DecidableEq

/-- Cached per-item record (struct `VideoCache`, index.rs); its record id
`videos:[user_id, item_id]` is modelled as the two-element key list. -/
structure VideoCache where
  id : List String
  data : VideoData
  last_updated : Int
  deriving DecidableEq

/-- Per-user cache entry (struct `HeresphereIndex`, index.rs); its record id
`index:user_id` is modelled as the user id string. -/
structure HeresphereIndex where
  id : Option String
  libraries : List Library
  scan : Option Scan
  last_updated : Int
  deriving DecidableEq

/-- The two cache tables (`index` keyed by user id, `videos` keyed per
user), as SurrealDB holds them. -/
structure CacheStore where
  index : String → Option HeresphereIndex
  videos : String → List VideoCache

/-- Environment of one `prime_data` run.  `Item` abstracts
`jellyfin::types::BaseItemDto`; `fetchItems` is the upstream
`user.items().await?.items` call (`None` models a missing `items` field);
`buildLibrary`, `buildScan`, `buildVideos` stand for the pure flattening
functions `baseitems_to_library`, `baseitems_to_scan`,
`baseitems_to_video_cache` with their host/token/config arguments closed
over — every theorem below holds for all values of these functions, so none
of their internals is assumed.  `insertIndexOk` / `insertVideosOk` give the
outcome of the two fallible DELETE+INSERT queries; a failed query is
modelled as leaving its table unchanged. -/
structure PrimeEnv (Item : Type) where
  now : Int
  cache_lifetime : Int
  fetchItems : Except String (Option (List Item))
  buildLibrary : List Item → Library
  buildScan : List Item → Scan
  buildVideos : List Item → List VideoCache
  insertIndexOk : Bool
  insertVideosOk : Bool

/-- The fresh entry built by `prime_data`: one library, the scan, and
`last_updated = Utc::now()`. -/
def builtIndex {Item : Type} (env : PrimeEnv Item) (user_id : String)
    (items : List Item) : HeresphereIndex :=
  { id := some user_id, libraries := [env.buildLibrary items],
    scan := some (env.buildScan items), last_updated := env.now }

/-- The store after `prime_data` replaces the user's index entry
(DELETE index:user; INSERT). -/
def storeWithIndex {Item : Type} (env : PrimeEnv Item) (store : CacheStore)
    (user_id : String) (items : List Item) : CacheStore :=
  { store with index := fun u =>
      if u = user_id then some (builtIndex env user_id items)
      else store.index u }

/-- The store after `prime_data` additionally replaces the user's whole
video set (DELETE videos:[user, '']..; INSERT). -/
def builtStore {Item : Type} (env : PrimeEnv Item) (store : CacheStore)
    (user_id : String) (items : List Item) : CacheStore :=
  { index := (storeWithIndex env store user_id items).index,
    videos := fun u =>
      if u = user_id then env.buildVideos items else store.videos u }

/-- Rebuild of one user's cache (`HeresphereIndex::prime_data`, index.rs):
fetch the item list upstream, build the library/scan/video payloads,
replace the index entry and the video set, and return the new entry.  The
`Nat` component counts upstream item-fetch invocations (the
"LibraryBuilder invocations" of the specification): always exactly one
here. -/
def prime_data {Item : Type} (env : PrimeEnv Item) (store : CacheStore)
    (user_id : String) : Except String (HeresphereIndex × CacheStore) × Nat :=
  match env.fetchItems with
  | .error e => (.error e, 1)
  | .ok none => (.error "No items in BaseItemDtoQueryResult", 1)
  | .ok (some items) =>
    if env.insertIndexOk then
      if env.insertVideosOk then
        (.ok (builtIndex env user_id items, builtStore env store user_id items), 1)
      else
        (.error "Inserting videos", 1)
    else
      (.error "Inserting cache", 1)

/-- Freshness gate (`HeresphereIndex::prime_data_maybe`, index.rs): look up
the user's entry; if present and not stale
(`state.last_updated < now - cache_lifetime` is the staleness test), return
it unchanged with zero upstream invocations; otherwise run `prime_data`. -/
def prime_data_maybe {Item : Type} (env : PrimeEnv Item) (store : CacheStore)
    (user_id : String) :
    Except String (HeresphereIndex × CacheStore) × Nat :=
  match store.index user_id with
  | some state =>
    if state.last_updated < env.now - env.cache_lifetime then
      prime_data env store user_id
    else
      (.ok (state, store), 0)
  | none => prime_data env store user_id

/-- C5: the TTL discipline of `prime_data_maybe`.  (1) A call that finds an
entry with age at most the cache lifetime returns that entry and the store
unchanged, with zero upstream builds — so its payload and `last_updated`
are exactly the stored ones.  (2) A call that finds a stale entry performs
exactly one upstream build and returns the freshly built entry, whose
`last_updated` is the call's `now`, having replaced the user's index entry
and whole video set.  (3) A first call on a cold cache builds once, and a
second call within the TTL window returns the identical entry and store
with no further build — one build in total. -/
theorem C5_ttl_freshness (Item : Type) (env env' : PrimeEnv Item)
    (store : CacheStore) (uid : String) :
    (∀ e, store.index uid = some e →
      ¬(e.last_updated < env.now - env.cache_lifetime) →
      prime_data_maybe env store uid = (.ok (e, store), 0)) ∧
    (∀ e items, store.index uid = some e →
      e.last_updated < env.now - env.cache_lifetime →
      env.fetchItems = .ok (some items) →
      env.insertIndexOk = true → env.insertVideosOk = true →
      prime_data_maybe env store uid =
        (.ok (builtIndex env uid items, builtStore env store uid items), 1) ∧
      (builtIndex env uid items).last_updated = env.now ∧
      (builtStore env store uid items).index uid = some (builtIndex env uid items) ∧
      (builtStore env store uid items).videos uid = env.buildVideos items) ∧
    (∀ items, store.index uid = none →
      env.fetchItems = .ok (some items) →
      env.insertIndexOk = true → env.insertVideosOk = true →
      env'.now - env.now ≤ env'.cache_lifetime →
      prime_data_maybe env store uid =
        (.ok (builtIndex env uid items, builtStore env store uid items), 1) ∧
      prime_data_maybe env' (builtStore env store uid items) uid =
        (.ok (builtIndex env uid items, builtStore env store uid items), 0)) := by
  refine ⟨?_, ?_, ?_⟩
  · intro e he hfresh
    simp [prime_data_maybe, he, hfresh]
  · intro e items he hstale hfetch hidx hvid
    refine ⟨?_, rfl, ?_, ?_⟩
    · simp [prime_data_maybe, he, hstale, prime_data, hfetch, hidx, hvid]
    · simp [builtStore, storeWithIndex]
    · simp [builtStore]
  · intro items hcold hfetch hidx hvid hwin
    have h1 : prime_data_maybe env store uid =
        (.ok (builtIndex env uid items, builtStore env store uid items), 1) := by
      simp [prime_data_maybe, hcold, prime_data, hfetch, hidx, hvid]
    refine ⟨h1, ?_⟩
    have hlook : (builtStore env store uid items).index uid =
        some (builtIndex env uid items) := by
      simp [builtStore, storeWithIndex]
    have hfresh : ¬((builtIndex env uid items).last_updated <
        env'.now - env'.cache_lifetime) := by
      show ¬(env.now < env'.now - env'.cache_lifetime)
      omega
    simp [prime_data_maybe, hlook, hfresh]

/-- Item type for the C5 witness: the flattening functions are instantiated
at trivial payloads, which the theorem never inspects. -/
def UnitItem : Type := Unit

/-- C5 witness environment for the cold build at t = 0, TTL 120. -/
def c5EnvBuild : PrimeEnv UnitItem :=
  { now := 0, cache_lifetime := 120, fetchItems := .ok (some []),
    buildLibrary := fun _ => { name := "Library", list := [] },
    buildScan := fun _ => { scan_data := [] },
    buildVideos := fun _ => [],
    insertIndexOk := true, insertVideosOk := true }

/-- C5 witness environment for the fresh request at t = 119, TTL 120. -/
def c5EnvFresh : PrimeEnv UnitItem :=
  { c5EnvBuild with now := 119 }

/-- C5 witness environment for the stale request at t = 121, TTL 120. -/
def c5EnvStale : PrimeEnv UnitItem :=
  { c5EnvBuild with now := 121 }

/-- C5 witness store: empty cold cache. -/
def c5ColdStore : CacheStore :=
  { index := fun _ => none, videos := fun _ => [] }

/-- C5 witness, the specification scenario with TTL 120 s: a cold build at
t = 0 invokes the upstream once; a request at t = 119 returns the identical
entry (hence `last_updated = 0`) with no build; and a request at t = 121
finds the entry stale and rebuilds exactly once with `last_updated = 121`. -/
theorem C5_witness :
    (prime_data_maybe c5EnvBuild c5ColdStore "u1" =
      (.ok (builtIndex c5EnvBuild "u1" [],
        builtStore c5EnvBuild c5ColdStore "u1" []), 1) ∧
    prime_data_maybe c5EnvFresh (builtStore c5EnvBuild c5ColdStore "u1" []) "u1" =
      (.ok (builtIndex c5EnvBuild "u1" [],
        builtStore c5EnvBuild c5ColdStore "u1" []), 0)) ∧
    (builtIndex c5EnvBuild "u1" []).last_updated = 0 ∧
    prime_data_maybe c5EnvStale (builtStore c5EnvBuild c5ColdStore "u1" []) "u1" =
      (.ok (builtIndex c5EnvStale "u1" [],
        builtStore c5EnvStale (builtStore c5EnvBuild c5ColdStore "u1" []) "u1" []), 1) ∧
    (builtIndex c5EnvStale "u1" []).last_updated = 121 := by
  refine ⟨?_, rfl, ?_, rfl⟩
  · exact (C5_ttl_freshness UnitItem c5EnvBuild c5EnvFresh c5ColdStore "u1").2.2
      [] rfl rfl rfl rfl (by norm_num [c5EnvBuild, c5EnvFresh])
  · exact ((C5_ttl_freshness UnitItem c5EnvStale c5EnvStale
      (builtStore c5EnvBuild c5ColdStore "u1" []) "u1").2.1
      (builtIndex c5EnvBuild "u1" []) []
      (by simp [builtStore, storeWithIndex])
      (by norm_num [builtIndex, c5EnvBuild, c5EnvStale]) rfl rfl rfl).1

/-! ## Concurrency of `prime_data_maybe` (C1)

Two request handlers running `prime_data_maybe` for the same user are
modelled as an interleaving of their atomic database / upstream operations.
Each caller executes, in order: the `db.select(("index", user))` lookup with
the freshness test (`select`), then — on miss or staleness — the upstream
`user.items()` fetch (`fetch`), the index DELETE+INSERT (`writeIndex`) and
the videos DELETE+INSERT (`writeVideos`) of `prime_data`, returning the
entry it built.  The source contains no lock, lease, or other single-flight
device around this sequence, so any interleaving of the two callers is
possible. -/

/-- Program counter of one `prime_data_maybe` caller. -/
inductive CallerPC where
  | start
  | needFetch
  | needWriteIndex
  | needWriteVideos
  | done
  deriving DecidableEq

/-- One caller: its next operation and, once finished, its returned entry. -/
structure CallerState where
  pc : CallerPC
  ret : Option HeresphereIndex
  deriving DecidableEq

/-- State shared by the two callers: the user's index entry, the user's
video set, and the number of upstream item fetches performed so far. -/
structure SharedCache where
  index : Option HeresphereIndex
  videos : List VideoCache
  fetchCount : Nat
  deriving DecidableEq

/-- Environment of the two-caller race: the (common) clock and TTL used by
the freshness test, and the entry / video set each caller's `prime_data`
run builds (its `last_updated` is set by that build). -/
structure RaceEnv where
  now : Int
  cache_lifetime : Int
  builtA : HeresphereIndex
  builtVideosA : List VideoCache
  builtB : HeresphereIndex
  builtVideosB : List VideoCache

/-- One atomic operation of one caller of `prime_data_maybe` against the
shared store, mirroring index.rs line by line: `select` applies the
freshness test `state.last_updated < now - cache_lifetime` and either
returns the fresh entry or falls through to `prime_data`; `fetch` performs
the upstream items call; the two writes replace the index entry and the
video set; a finished caller does nothing. -/
def callerStep (env : RaceEnv) (built : HeresphereIndex)
    (vids : List VideoCache) (sh : SharedCache) (c : CallerState) :
    SharedCache × CallerState :=
  match c.pc with
  | .start =>
    match sh.index with
    | some state =>
      if state.last_updated < env.now - env.cache_lifetime then
        (sh, { c with pc := .needFetch })
      else
        (sh, { pc := .done, ret := some state })
    | none => (sh, { c with pc := .needFetch })
  | .needFetch =>
    ({ sh with fetchCount := sh.fetchCount + 1 }, { c with pc := .needWriteIndex })
  | .needWriteIndex =>
    ({ sh with index := some built }, { c with pc := .needWriteVideos })
  | .needWriteVideos =>
    ({ sh with videos := vids }, { pc := .done, ret := some built })
  | .done => (sh, c)

/-- Which caller runs next. -/
inductive Who where
  | A
  | B
  deriving DecidableEq

/-- Full race state: the shared store plus both callers. -/
structure RaceState where
  shared : SharedCache
  callerA : CallerState
  callerB : CallerState
  deriving DecidableEq

/-- Run one scheduled step of the race. -/
def raceStep (env : RaceEnv) (s : RaceState) : Who → RaceState
  | .A =>
    let r := callerStep env env.builtA env.builtVideosA s.shared s.callerA
    { s with shared := r.1, callerA := r.2 }
  | .B =>
    let r := callerStep env env.builtB env.builtVideosB s.shared s.callerB
    { s with shared := r.1, callerB := r.2 }

/-- Run a whole schedule (a list of caller choices). -/
def runRace (env : RaceEnv) (sched : List Who) (s : RaceState) : RaceState :=
  sched.foldl (raceStep env) s

/-- The race's initial state on a cold cache: no entry, no videos, no
fetches, both callers about to select. -/
def coldRace : RaceState :=
  { shared := { index := none, videos := [], fetchCount := 0 },
    callerA := { pc := .start, ret := none },
    callerB := { pc := .start, ret := none } }

/-- The overlapping schedule: both callers select (and miss) before either
writes, then each completes its own rebuild. -/
def overlappedSched : List Who :=
  [.A, .B, .A, .A, .A, .B, .B, .B]

/-- C1 (amended): `prime_data_maybe` has no single-flight lease — each
concurrent caller that observes an absent (or stale) entry performs its own
upstream build.  Under the overlapping schedule on a cold cache, for every
environment, both callers complete, the upstream items fetch runs exactly
twice (once per caller), and each caller returns the entry its own rebuild
produced; the store ends holding the later writer's entry.  Deduplication
happens only when a caller's select finds a fresh entry: if caller B runs
entirely after caller A's completed rebuild and A's entry is still fresh, B
returns A's entry with no second fetch. -/
theorem C1_no_single_flight (env : RaceEnv) :
    ((runRace env overlappedSched coldRace).shared.fetchCount = 2 ∧
      (runRace env overlappedSched coldRace).callerA =
        { pc := .done, ret := some env.builtA } ∧
      (runRace env overlappedSched coldRace).callerB =
        { pc := .done, ret := some env.builtB } ∧
      (runRace env overlappedSched coldRace).shared.index = some env.builtB) ∧
    (¬(env.builtA.last_updated < env.now - env.cache_lifetime) →
      (runRace env [.A, .A, .A, .A, .B] coldRace).shared.fetchCount = 1 ∧
      (runRace env [.A, .A, .A, .A, .B] coldRace).callerB =
        { pc := .done, ret := some env.builtA }) := by
  constructor
  · exact ⟨rfl, rfl, rfl, rfl⟩
  · intro hfresh
    constructor
    · show (raceStep env (runRace env [.A, .A, .A, .A] coldRace) .B).shared.fetchCount = 1
      simp [runRace, raceStep, callerStep, coldRace, overlappedSched, hfresh]
    · show (raceStep env (runRace env [.A, .A, .A, .A] coldRace) .B).callerB =
        { pc := .done, ret := some env.builtA }
      simp [runRace, raceStep, callerStep, coldRace, overlappedSched, hfresh]

/-- Concrete race environment for the C1 theorems: TTL 120, both builds
producing (distinct) empty entries stamped at the shared clock. -/
def c1Env : RaceEnv :=
  { now := 0, cache_lifetime := 120,
    builtA := { id := some "u1", libraries := [{ name := "Library", list := ["a"] }],
                scan := some { scan_data := [] }, last_updated := 0 },
    builtVideosA := [],
    builtB := { id := some "u1", libraries := [{ name := "Library", list := ["b"] }],
                scan := some { scan_data := [] }, last_updated := 0 },
    builtVideosB := [] }

/-- C1 counterexample: on a cold cache, the overlapping schedule of two
concurrent `prime_data_maybe` callers for the same user performs two
upstream builds, not exactly one as the claim states, and the callers
return different entries (each its own build). -/
theorem C1_counterexample :
    (runRace c1Env overlappedSched coldRace).shared.fetchCount = 2 ∧
    (runRace c1Env overlappedSched coldRace).shared.fetchCount ≠ 1 ∧
    (runRace c1Env overlappedSched coldRace).callerA.ret ≠
      (runRace c1Env overlappedSched coldRace).callerB.ret := by
  refine ⟨rfl, by decide, ?_⟩
  show some c1Env.builtA ≠ some c1Env.builtB
  decide

/-- C1 witness for the amended claim, at the concrete environment: two
fetches under overlap, one fetch when the second caller runs after the
first completed and the entry is still fresh. -/
theorem C1_witness :
    ((runRace c1Env overlappedSched coldRace).shared.fetchCount = 2 ∧
      (runRace c1Env overlappedSched coldRace).callerA =
        { pc := .done, ret := some c1Env.builtA } ∧
      (runRace c1Env overlappedSched coldRace).callerB =
        { pc := .done, ret := some c1Env.builtB } ∧
      (runRace c1Env overlappedSched coldRace).shared.index = some c1Env.builtB) ∧
    ((runRace c1Env [.A, .A, .A, .A, .B] coldRace).shared.fetchCount = 1 ∧
      (runRace c1Env [.A, .A, .A, .A, .B] coldRace).callerB =
        { pc := .done, ret := some c1Env.builtA }) :=
  ⟨(C1_no_single_flight c1Env).1,
    (C1_no_single_flight c1Env).2 (by norm_num [c1Env])⟩

/-! ## The session store (`AppState`, main.rs) -/

/-- Successful result of the Jellyfin quick-connect auth handshake
(`QuickConnectSession::auth`, jellyfin.rs): user id, access token and
username. -/
structure AuthInfo where
  id : String
  token : String
  username : String
  deriving DecidableEq

/-- Oracle environment for `handle_session`: outcome of the upstream
`new_quick_connect` call, the record id the database assigns to a created
session, the outcome of `poll` for a given (secret, code) pairing, the
outcome of the `auth` handshake, and the password `gen_short_password(6)`
produces.  The `db.create` itself is modelled as succeeding. -/
structure HandleEnv where
  newQuickConnect : Except String QuickConnect
  newId : String
  poll : String → String → Except String Bool
  auth : Except String AuthInfo
  password : String

/-- Lookup of the `session` table by record id
(`db.select(("session", cookie))`). -/
def find_session (store : List SessionState) (c : String) : Option SessionState :=
  store.find? (fun st => st.id == some c)

/-- `AppState::new_session` (main.rs): obtain a pairing secret and code
upstream, persist a new pending session, return it. -/
def new_session (env : HandleEnv) (store : List SessionState) :
    Except String (SessionState × List SessionState) :=
  match env.newQuickConnect with
  | .error e => .error e
  | .ok qc =>
    let st : SessionState := { id := some env.newId, session := .QuickConnect qc }
    .ok (st, store ++ [st])

/-- The promoted user record built at the pending-to-authenticated
transition. -/
def promotedUser (env : HandleEnv) (resp : AuthInfo) : User :=
  { user_id := resp.id, token := resp.token, username := resp.username,
    jellyvr_password := env.password, last_known_playback := none }

/-- `self.db.update("session").content(..)` as issued by the promotion arm
of `handle_session`: with a bare table name this is a TABLE-wide update (the
SDK returns a `Vec`, confirming the all-records form) — every record of the
`session` table has its content replaced by the given content, each keeping
its own immutable record id. -/
def update_table_session (store : List SessionState) (content : SessionState) :
    List SessionState :=
  store.map (fun r => { id := r.id, session := content.session })

/-- `AppState::handle_session` (main.rs): resolve the session referenced by
the cookie (creating a pending one when absent), then, for a pending
session, poll the pairing; on approval run the auth handshake, generate the
derived password and persist the promoted record via the table-wide update
above, returning the first record of the updated table; on non-approval
return the unchanged pending state; authenticated sessions are returned as
is.  The returned pair is (handler result, session table afterwards). -/
def handle_session (env : HandleEnv) (store : List SessionState)
    (cookie : Option String) : Except String SessionState × List SessionState :=
  let resolved : Except String (SessionState × List SessionState) :=
    match cookie with
    | some c =>
      match find_session store c with
      | some st => .ok (st, store)
      | none => new_session env store
    | none => new_session env store
  match resolved with
  | .error e => (.error e, store)
  | .ok (existing, store1) =>
    match existing.session with
    | .QuickConnect qc =>
      match env.poll qc.secret qc.code with
      | .error e => (.error e, store1)
      | .ok false => (.ok existing, store1)
      | .ok true =>
        match env.auth with
        | .error e => (.error e, store1)
        | .ok resp =>
          let store2 := update_table_session store1
            { id := existing.id, session := .User (promotedUser env resp) }
          match store2.head? with
          | some st => (.ok st, store2)
          | none => (.error "panic: No session created", store2)
    | .User _ => (.ok existing, store1)

/-- C6 (amended): applied to a persisted pending session, `handle_session`
leaves the session table untouched in every non-promoting outcome — on
upstream non-approval it returns the unchanged pending state, while on a
failed poll or a failed auth handshake it returns that error (not the
pending state, as the original claim said) — so a failed promotion attempt
never modifies any persisted record. -/
theorem C6_pending_failure_leaves_store
    (env : HandleEnv) (store : List SessionState) (c : String)
    (st : SessionState) (qc : QuickConnect)
    (hfind : find_session store c = some st)
    (hqc : st.session = .QuickConnect qc) :
    (env.poll qc.secret qc.code = .ok false →
      handle_session env store (some c) = (.ok st, store)) ∧
    (∀ e, env.poll qc.secret qc.code = .error e →
      handle_session env store (some c) = (.error e, store)) ∧
    (∀ e, env.poll qc.secret qc.code = .ok true → env.auth = .error e →
      handle_session env store (some c) = (.error e, store)) := by
  refine ⟨?_, ?_, ?_⟩
  · intro hpoll
    simp [handle_session, hfind, hqc, hpoll]
  · intro e hpoll
    simp [handle_session, hfind, hqc, hpoll]
  · intro e hpoll hauth
    simp [handle_session, hfind, hqc, hpoll, hauth]

/-- Pending session "a" used by the session-store scenarios. -/
def pendA : SessionState :=
  { id := some "a", session := .QuickConnect { secret := "sa", code := "ca" } }

/-- Pending session "b" (a different user's pairing attempt). -/
def pendB : SessionState :=
  { id := some "b", session := .QuickConnect { secret := "sb", code := "cb" } }

/-- Environment in which the upstream poll fails with a network error. -/
def c6FailEnv : HandleEnv :=
  { newQuickConnect := .error "unused", newId := "n",
    poll := fun _ _ => .error "connection refused",
    auth := .error "unused", password := "abcdef" }

/-- C6 counterexample: when the upstream poll fails, `handle_session`
returns the error — not the unchanged Pending state the claim promises —
although the persisted table is indeed untouched. -/
theorem C6_counterexample :
    handle_session c6FailEnv [pendA] (some "a") =
      (.error "connection refused", [pendA]) ∧
    (handle_session c6FailEnv [pendA] (some "a")).1 ≠ .ok pendA := by
  refine ⟨rfl, ?_⟩
  rw [show (handle_session c6FailEnv [pendA] (some "a")).1 =
    .error "connection refused" from rfl]
  simp

/-- C6 witness for the amended claim: the failing-poll case at the concrete
store, discharged through the amended theorem. -/
theorem C6_witness :
    handle_session c6FailEnv [pendA] (some "a") =
      (.error "connection refused", [pendA]) :=
  (C6_pending_failure_leaves_store c6FailEnv [pendA] "a" pendA
    { secret := "sa", code := "ca" } rfl rfl).2.1 "connection refused" rfl

/-- Environment in which the pairing is approved and the handshake
succeeds, yielding user "alice". -/
def c9PromoteEnv : HandleEnv :=
  { newQuickConnect := .error "unused", newId := "n",
    poll := fun _ _ => .ok true,
    auth := .ok { id := "uid1", token := "tok1", username := "alice" },
    password := "abcdef" }

/-- C9 (code bug): promoting session "a" is persisted with
`db.update("session")`, a table-wide update, so the unrelated pending
session "b" has its record content replaced by "a"'s promoted user as well
— the frame property (all other records unchanged) fails.  The dedicated
record-targeted helper `update_session` shows the intended idiom. -/
theorem C9_promotion_clobbers_other_sessions :
    (handle_session c9PromoteEnv [pendA, pendB] (some "a")).2 =
      [{ id := some "a", session := .User (promotedUser c9PromoteEnv
          { id := "uid1", token := "tok1", username := "alice" }) },
       { id := some "b", session := .User (promotedUser c9PromoteEnv
          { id := "uid1", token := "tok1", username := "alice" }) }] ∧
    (handle_session c9PromoteEnv [pendA, pendB] (some "a")).2[1]? ≠
      some pendB := by
  refine ⟨rfl, ?_⟩
  decide

/-! ## Credential lookup and the request extractor (C7, C8) -/

/-- The WHERE clause of `get_session_from_heresphere_request` (main.rs):
`session.User.username = $username AND session.User.jellyvr_password =
$password` — false on pending records, whose `session.User` is absent. -/
def matches_creds (username password : String) (st : SessionState) : Bool :=
  match st.session with
  | .User u => u.username == username && u.jellyvr_password == password
  | .QuickConnect _ => false

/-- `AppState::get_session_from_heresphere_request` (main.rs): the
`SELECT ... LIMIT 1` over the session table, returning the first matching
record or a not-found error. -/
def get_session_from_heresphere_request (store : List SessionState)
    (username password : String) : Except String SessionState :=
  match store.find? (matches_creds username password) with
  | some st => .ok st
  | none => .error "No session found for request"

/-- Credential matching unfolded: a record matches exactly when it is an
authenticated session with the given username and derived password. -/
theorem matches_creds_iff (u p : String) (st : SessionState) :
    matches_creds u p st = true ↔
    ∃ user, st.session = .User user ∧ user.username = u ∧
      user.jellyvr_password = p := by
  obtain ⟨id, sess⟩ := st
  cases sess with
  | QuickConnect qc => simp [matches_creds]
  | User user => simp [matches_creds]

/-- With no stored authenticated session carrying the given credentials,
the lookup returns the not-found error (shared helper for the lookup and
extractor theorems). -/
theorem lookup_no_match (store : List SessionState) (u p : String)
    (hnone : ¬∃ st ∈ store, ∃ user, st.session = .User user ∧
      user.username = u ∧ user.jellyvr_password = p) :
    get_session_from_heresphere_request store u p =
      .error "No session found for request" := by
  rw [get_session_from_heresphere_request]
  have : store.find? (matches_creds u p) = none := by
    rw [List.find?_eq_none]
    intro st hmem hmatch
    exact hnone ⟨st, hmem, (matches_creds_iff u p st).mp hmatch⟩
  rw [this]

/-- C7: the credential lookup succeeds exactly when some persisted
authenticated session carries the given (username, derived password) pair;
any session it returns is such a stored authenticated match (so it never
returns a pending session); and with no match it returns the not-found
error. -/
theorem C7_lookup_by_credentials (store : List SessionState) (u p : String) :
    ((∃ st ∈ store, ∃ user, st.session = .User user ∧ user.username = u ∧
        user.jellyvr_password = p) ↔
      ∃ st, get_session_from_heresphere_request store u p = .ok st) ∧
    (∀ st, get_session_from_heresphere_request store u p = .ok st →
      st ∈ store ∧ ∃ user, st.session = .User user ∧ user.username = u ∧
        user.jellyvr_password = p) ∧
    ((¬∃ st ∈ store, ∃ user, st.session = .User user ∧ user.username = u ∧
        user.jellyvr_password = p) →
      get_session_from_heresphere_request store u p =
        .error "No session found for request") := by
  have hbridge : ∀ st : SessionState,
      (matches_creds u p st = true ↔
        ∃ user, st.session = .User user ∧ user.username = u ∧
          user.jellyvr_password = p) := matches_creds_iff u p
  refine ⟨?_, ?_, ?_⟩
  · constructor
    · rintro ⟨st, hmem, hmatch⟩
      have : (store.find? (matches_creds u p)).isSome := by
        rw [List.find?_isSome]
        exact ⟨st, hmem, (hbridge st).mpr hmatch⟩
      obtain ⟨st', hst'⟩ := Option.isSome_iff_exists.mp this
      exact ⟨st', by rw [get_session_from_heresphere_request, hst']⟩
    · rintro ⟨st, hst⟩
      rw [get_session_from_heresphere_request] at hst
      cases hfind : store.find? (matches_creds u p) with
      | none => rw [hfind] at hst; cases hst
      | some st' =>
        exact ⟨st', List.mem_of_find?_eq_some hfind,
          (hbridge st').mp (List.find?_some hfind)⟩
  · intro st hst
    rw [get_session_from_heresphere_request] at hst
    cases hfind : store.find? (matches_creds u p) with
    | none => rw [hfind] at hst; cases hst
    | some stf =>
      rw [hfind] at hst
      cases hst
      exact ⟨List.mem_of_find?_eq_some hfind,
        (hbridge st).mp (List.find?_some hfind)⟩
  · exact lookup_no_match store u p

/-- Authenticated session row for the credential-lookup witnesses. -/
def authRow : SessionState :=
  { id := some "a",
    session := .User
      { user_id := "uid1", token := "tok1", username := "alice",
        jellyvr_password := "abcdef", last_known_playback := none } }

/-- C7 witness: in a store holding a pending session and alice's
authenticated session, looking up alice's credentials succeeds with her
session, and looking up a wrong password returns the not-found error. -/
theorem C7_witness :
    (∃ st, get_session_from_heresphere_request [pendB, authRow]
      "alice" "abcdef" = .ok st) ∧
    get_session_from_heresphere_request [pendB, authRow] "alice" "wrong" =
      .error "No session found for request" := by
  constructor
  · exact (C7_lookup_by_credentials [pendB, authRow] "alice" "abcdef").1.mp
      ⟨authRow, by decide, by
        refine ⟨_, rfl, rfl, rfl⟩⟩
  · refine (C7_lookup_by_credentials [pendB, authRow] "alice" "wrong").2.2 ?_
    rintro ⟨st, hmem, user, hu, hname, hpass⟩
    simp only [List.mem_cons, List.not_mem_nil, or_false] at hmem
    cases hmem with
    | inl h =>
      subst h
      simp [pendB] at hu
    | inr h =>
      subst h
      simp only [authRow, Session.User.injEq] at hu
      subst hu
      exact absurd hpass (by decide)

/-- The protocol's magic header name (`MAGIC_HEADER`, heresphere.rs). -/
def MAGIC_HEADER : String := "HereSphere-JSON-Version"

/-- The "not logged in" rejection the extractor produces (headers, body):
the magic header plus an `access: -1` JSON body, exactly the bytes
`format!` yields in main.rs. -/
def notLoggedInResponse : List (String × String) × String :=
  ([(MAGIC_HEADER, "1"), ("Content-Type", "application/json")],
   "\x7b\"access\": -1, \"library\": [\x7b\"name\": \"Login pls\", \"list\": []\x7d,]\x7d")

/-- The second stage of `HeresphereSession::from_request` (main.rs): a
resolved session is accepted only if it is an authenticated one; anything
else is rejected with the "not logged in" payload. -/
def classify_session (st : SessionState) :
    (List (String × String) × String) ⊕ (SessionState × User) :=
  match st.session with
  | .User user => .inr (st, user)
  | .QuickConnect _ => .inl notLoggedInResponse

/-- `HeresphereSession::from_request` (main.rs), after body parsing: resolve
the session by the body credentials; a failed lookup is rejected with the
"not logged in" payload, otherwise the session is classified as above. -/
def from_request (store : List SessionState) (username password : String) :
    (List (String × String) × String) ⊕ (SessionState × User) :=
  match get_session_from_heresphere_request store username password with
  | .error _ => .inl notLoggedInResponse
  | .ok st => classify_session st

/-- C8: a catalog request whose body credentials match no authenticated
session is rejected with the protocol's own "not logged in" response — the
magic header and the literal `access: -1` JSON body — and a session that
resolves to a still-pending record is rejected with the same payload; in
neither case is a generic failure produced. -/
theorem C8_not_logged_in_payload (store : List SessionState) (u p : String) :
    ((¬∃ st ∈ store, ∃ user, st.session = .User user ∧ user.username = u ∧
        user.jellyvr_password = p) →
      from_request store u p = .inl ([(MAGIC_HEADER, "1"),
        ("Content-Type", "application/json")],
        "\x7b\"access\": -1, \"library\": [\x7b\"name\": \"Login pls\", \"list\": []\x7d,]\x7d")) ∧
    (∀ st qc, st.session = .QuickConnect qc →
      classify_session st = .inl ([(MAGIC_HEADER, "1"),
        ("Content-Type", "application/json")],
        "\x7b\"access\": -1, \"library\": [\x7b\"name\": \"Login pls\", \"list\": []\x7d,]\x7d")) := by
  constructor
  · intro hnone
    rw [from_request, lookup_no_match store u p hnone]
    rfl
  · intro st qc hqc
    rw [classify_session, hqc]
    rfl

/-- C8 witness: the wrong-password request against the concrete store is
rejected with the magic header and the `access: -1` body, and classifying
the pending session rejects likewise. -/
theorem C8_witness :
    from_request [pendB, authRow] "alice" "wrong" =
      .inl ([(MAGIC_HEADER, "1"), ("Content-Type", "application/json")],
        "\x7b\"access\": -1, \"library\": [\x7b\"name\": \"Login pls\", \"list\": []\x7d,]\x7d") ∧
    classify_session pendB =
      .inl ([(MAGIC_HEADER, "1"), ("Content-Type", "application/json")],
        "\x7b\"access\": -1, \"library\": [\x7b\"name\": \"Login pls\", \"list\": []\x7d,]\x7d") := by
  constructor
  · refine (C8_not_logged_in_payload [pendB, authRow] "alice" "wrong").1 ?_
    rintro ⟨st, hmem, user, hu, hname, hpass⟩
    simp only [List.mem_cons, List.not_mem_nil, or_false] at hmem
    cases hmem with
    | inl h =>
      subst h
      simp [pendB] at hu
    | inr h =>
      subst h
      simp only [authRow, Session.User.injEq] at hu
      subst hu
      exact absurd hpass (by decide)
  · exact (C8_not_logged_in_payload [pendB, authRow] "alice" "wrong").2 pendB
      { secret := "sb", code := "cb" } rfl

/-! ## The playback event handler (`heresphere_event`, main.rs) -/

/-- Event kind (enum `EventType`, heresphere.rs). -/
inductive EventType where
  | Open
  | Play
  | Pause
  | Close
  deriving DecidableEq

/-- Inbound event (struct `Event`, heresphere.rs); `f64` fields as `ℚ`. -/
structure Event where
  username : String
  id : String
  title : String
  event : EventType
  time : ℚ
  speed : ℚ
  utc : ℚ
  connection_key : String
  deriving DecidableEq

/-- The playback written by the Play/Pause arms of `heresphere_event`:
pausedness per the event kind, the event's speed, position
`(event.time * 10000.0) as i64`, `last_update = now`, all other fields from
the unwrapped previous playback. -/
def eventPlayback (now : Int) (ev : Event) (paused : Bool) (pb : Playback) :
    Playback :=
  { pb with
    is_paused := paused,
    speed := ev.speed,
    position_estimate := f64_as_i64 (ev.time * 10000),
    last_update := now }

/-- The state update performed by `heresphere_event` (main.rs) once the
session resolved to an authenticated user: Open and Close change nothing;
Play and Pause rebuild the playback around
`user.last_known_playback.unwrap()` — a `None` there panics the handler,
modelled as `Option.none`. -/
def heresphere_event_update (now : Int) (ev : Event) (user : User) :
    Option User :=
  match ev.event with
  | .Open => some user
  | .Play =>
    match user.last_known_playback with
    | some pb =>
      some { user with last_known_playback := some (eventPlayback now ev false pb) }
    | none => none
  | .Pause =>
    match user.last_known_playback with
    | some pb =>
      some { user with last_known_playback := some (eventPlayback now ev true pb) }
    | none => none
  | .Close => some user

/-- C10: for a Play or Pause event on an authenticated session, the handler
completes exactly when the session already has a playback
(`last_known_playback` is `Some`); with no playback it panics (unwraps
`None`), producing neither a fresh playback nor an error response. -/
theorem C10_event_unwraps_playback (now : Int) (ev : Event) (user : User)
    (h : ev.event = .Play ∨ ev.event = .Pause) :
    ((heresphere_event_update now ev user).isSome ↔
      user.last_known_playback.isSome) ∧
    (user.last_known_playback = none →
      heresphere_event_update now ev user = none) := by
  cases h with
  | inl hp =>
    cases hpb : user.last_known_playback with
    | none => simp [heresphere_event_update, hp, hpb]
    | some pb => simp [heresphere_event_update, hp, hpb]
  | inr hp =>
    cases hpb : user.last_known_playback with
    | none => simp [heresphere_event_update, hp, hpb]
    | some pb => simp [heresphere_event_update, hp, hpb]

/-- A freshly authenticated user with no playback yet (tracking was never
started through the single-item endpoint). -/
def userNoPlayback : User :=
  { user_id := "uid1", token := "tok1", username := "alice",
    jellyvr_password := "abcdef", last_known_playback := none }

/-- A Play event as the client sends it. -/
def playEvent : Event :=
  { username := "alice", id := "http://host/heresphere/v1", title := "t",
    event := .Play, time := 5000, speed := 1, utc := 0,
    connection_key := "" }

/-- C10 witness: a Play event for a session without a playback panics (the
model returns `none`), and the same session's handler result is `isSome`
exactly when a playback exists — here, not. -/
theorem C10_witness :
    ((heresphere_event_update 0 playEvent userNoPlayback).isSome ↔
      userNoPlayback.last_known_playback.isSome) ∧
    (userNoPlayback.last_known_playback = none →
      heresphere_event_update 0 playEvent userNoPlayback = none) :=
  C10_event_unwraps_playback 0 playEvent userNoPlayback (Or.inl rfl)

end JellyVR
